import Mathlib

/-
  Verification of the navagfx-engine core: the typed asset registry
  (src/core/src/assets.rs) and the batched 2D quad renderer
  (src/core/src/graphics/renderer2d.rs, src/core/src/graphics/shapes.rs).

  Embedding conventions:
  * Rust u32 / usize counters are modelled as Nat, i32 depth indices as Int.
  * f32 scalars are idealized as exact rationals; the cosine/sine of a quad's
    rotation (degrees, converted to radians inside glam) are abstracted as a
    pair of functions `cosd sind : Q -> Q` supplied to every operation that
    computes a transform, so no trigonometric identity is assumed.
  * HashMap is modelled as an association list whose insert replaces the
    binding of an existing key in place and appends a new key at the end;
    Renderer2D sorts batches before iterating, so only the multiset of
    entries matters to the claims proved here.
  * GPU side effects (buffer reallocation, buffer writes, bind-group binds,
    draw calls) are recorded as an explicit event trace.
-/

namespace Navagfx

/-- Row-major 4x4 rational matrix, standing for glam::Mat4 acting on column
vectors. -/
structure M4 where
  m00 : ℚ
  m01 : ℚ
  m02 : ℚ
  m03 : ℚ
  m10 : ℚ
  m11 : ℚ
  m12 : ℚ
  m13 : ℚ
  m20 : ℚ
  m21 : ℚ
  m22 : ℚ
  m23 : ℚ
  m30 : ℚ
  m31 : ℚ
  m32 : ℚ
  m33 : ℚ
deriving DecidableEq, Repr

namespace M4

/-- Matrix product (row-major, `A.mul B` first applies `B`, then `A`). -/
def mul (A B : M4) : M4 where
  m00 := A.m00 * B.m00 + A.m01 * B.m10 + A.m02 * B.m20 + A.m03 * B.m30
  m01 := A.m00 * B.m01 + A.m01 * B.m11 + A.m02 * B.m21 + A.m03 * B.m31
  m02 := A.m00 * B.m02 + A.m01 * B.m12 + A.m02 * B.m22 + A.m03 * B.m32
  m03 := A.m00 * B.m03 + A.m01 * B.m13 + A.m02 * B.m23 + A.m03 * B.m33
  m10 := A.m10 * B.m00 + A.m11 * B.m10 + A.m12 * B.m20 + A.m13 * B.m30
  m11 := A.m10 * B.m01 + A.m11 * B.m11 + A.m12 * B.m21 + A.m13 * B.m31
  m12 := A.m10 * B.m02 + A.m11 * B.m12 + A.m12 * B.m22 + A.m13 * B.m32
  m13 := A.m10 * B.m03 + A.m11 * B.m13 + A.m12 * B.m23 + A.m13 * B.m33
  m20 := A.m20 * B.m00 + A.m21 * B.m10 + A.m22 * B.m20 + A.m23 * B.m30
  m21 := A.m20 * B.m01 + A.m21 * B.m11 + A.m22 * B.m21 + A.m23 * B.m31
  m22 := A.m20 * B.m02 + A.m21 * B.m12 + A.m22 * B.m22 + A.m23 * B.m32
  m23 := A.m20 * B.m03 + A.m21 * B.m13 + A.m22 * B.m23 + A.m23 * B.m33
  m30 := A.m30 * B.m00 + A.m31 * B.m10 + A.m32 * B.m20 + A.m33 * B.m30
  m31 := A.m30 * B.m01 + A.m31 * B.m11 + A.m32 * B.m21 + A.m33 * B.m31
  m32 := A.m30 * B.m02 + A.m31 * B.m12 + A.m32 * B.m22 + A.m33 * B.m32
  m33 := A.m30 * B.m03 + A.m31 * B.m13 + A.m32 * B.m23 + A.m33 * B.m33

/-- The identity matrix. -/
def id4 : M4 :=
  ⟨1, 0, 0, 0, 0, 1, 0, 0, 0, 0, 1, 0, 0, 0, 0, 1⟩

end M4

/-- Translation by a 3D vector, as a homogeneous 4x4 matrix. -/
def translateM (t : ℚ × ℚ × ℚ) : M4 :=
  ⟨1, 0, 0, t.1,
   0, 1, 0, t.2.1,
   0, 0, 1, t.2.2,
   0, 0, 0, 1⟩

/-- Non-uniform scale by a 3D vector, as a homogeneous 4x4 matrix. -/
def scaleM (s : ℚ × ℚ × ℚ) : M4 :=
  ⟨s.1, 0, 0, 0,
   0, s.2.1, 0, 0,
   0, 0, s.2.2, 0,
   0, 0, 0, 1⟩

/-- Rotation about the z axis, as a homogeneous 4x4 matrix; `c` and `s` stand
for the cosine and sine of the angle (glam's `Quat::from_rotation_z` acts on
vectors exactly this way). -/
def rotZM (c s : ℚ) : M4 :=
  ⟨c, -s, 0, 0,
   s, c, 0, 0,
   0, 0, 1, 0,
   0, 0, 0, 1⟩

/-- The action of the z-rotation with cosine `c` and sine `s` on a 3D
vector, standing for `rotation_quat * v` in glam. -/
def rotZv (c s : ℚ) (v : ℚ × ℚ × ℚ) : ℚ × ℚ × ℚ :=
  (c * v.1 - s * v.2.1, s * v.1 + c * v.2.1, v.2.2)

/-- The Quad of src/core/src/graphics/shapes.rs: position, size, rotation
(degrees), public depth index `z_index`, public color, plus the cached
transform matrix and the dirty flag (both interior-mutable Cells in Rust). -/
structure Quad where
  position : ℚ × ℚ
  size : ℚ × ℚ
  rotation : ℚ
  z_index : ℤ
  color : ℚ × ℚ × ℚ × ℚ
  transform : M4
  transform_needs_update : Bool
deriving DecidableEq, Repr

namespace Quad

/-- `Quad::compute_transform`: rotate the quad about its own center. `c` and
`s` stand for the cosine and sine of the rotation angle (the f32
`rotation.to_radians()` trigonometry is abstracted to exact rationals).
Mirrors: `center = (size * 0.5).extend(0)`, `rotated_center = quat * -center`,
`final_translation = position.extend(0) + center + rotated_center`, result
`Mat4::from_scale_rotation_translation(size.extend(1), quat,
final_translation)`, which is the product `T * R * S`. -/
def compute_transform (position size : ℚ × ℚ) (c s : ℚ) : M4 :=
  let center : ℚ × ℚ × ℚ := (size.1 / 2, size.2 / 2, 0)
  let rotated_center := rotZv c s (-center.1, -center.2.1, -center.2.2)
  let final_translation : ℚ × ℚ × ℚ :=
    (position.1 + center.1 + rotated_center.1,
     position.2 + center.2.1 + rotated_center.2.1,
     0 + center.2.2 + rotated_center.2.2)
  M4.mul (translateM final_translation)
    (M4.mul (rotZM c s) (scaleM (size.1, size.2, 1)))

/-- `Quad::new` (private constructor): precomputes the transform, clears the
dirty flag, and defaults color to opaque white and `z_index` to 0. The
`cosd sind` arguments supply the idealized cosine/sine of a rotation given in
degrees. -/
def new (cosd sind : ℚ → ℚ) (position size : ℚ × ℚ) (rotation : ℚ) : Quad where
  position := position
  size := size
  rotation := rotation
  z_index := 0
  color := (1, 1, 1, 1)
  transform := compute_transform position size (cosd rotation) (sind rotation)
  transform_needs_update := false

/-- `Quad::with_position_and_size`. -/
def with_position_and_size (cosd sind : ℚ → ℚ) (position size : ℚ × ℚ) : Quad :=
  new cosd sind position size 0

/-- `Quad::with_size`. -/
def with_size (cosd sind : ℚ → ℚ) (size : ℚ × ℚ) : Quad :=
  with_position_and_size cosd sind (0, 0) size

/-- `Quad::set_position`. -/
def set_position (q : Quad) (position : ℚ × ℚ) : Quad :=
  { q with position := position, transform_needs_update := true }

/-- `Quad::set_size`. -/
def set_size (q : Quad) (size : ℚ × ℚ) : Quad :=
  { q with size := size, transform_needs_update := true }

/-- `Quad::rotate`. -/
def rotate (q : Quad) (delta_rotation : ℚ) : Quad :=
  { q with rotation := q.rotation + delta_rotation, transform_needs_update := true }

/-- `Quad::set_rotation`. -/
def set_rotation (q : Quad) (rotation : ℚ) : Quad :=
  { q with rotation := rotation, transform_needs_update := true }

/-- A direct write to the public field `z_index` (the field is `pub i32` in
Rust; a plain field assignment touches no other field of the struct). -/
def set_z_index (q : Quad) (z : ℤ) : Quad :=
  { q with z_index := z }

/-- `Quad::get_transform`: recompute and cache only when the dirty flag is
set, clearing the flag. Interior mutability of the two Cells is modelled by
returning the updated quad next to the matrix. -/
def get_transform (cosd sind : ℚ → ℚ) (q : Quad) : M4 × Quad :=
  if q.transform_needs_update then
    let m := compute_transform q.position q.size (cosd q.rotation) (sind q.rotation)
    (m, { q with transform := m, transform_needs_update := false })
  else
    (q.transform, q)

end Quad

/-- C6: for every position, size and (abstracted) rotation cosine/sine, the
matrix built by `Quad::compute_transform` equals the composition
translate(position) * translate(center) * rotate * translate(-center) *
scale(size) with center = size / 2: the quad rotates about its own geometric
center while `position` remains the pre-rotation top-left corner. -/
theorem compute_transform_centered_rotation (p sz : ℚ × ℚ) (c s : ℚ) :
    Quad.compute_transform p sz c s =
      M4.mul (translateM (p.1, p.2, 0))
        (M4.mul (translateM (sz.1 / 2, sz.2 / 2, 0))
          (M4.mul (rotZM c s)
            (M4.mul (translateM (-(sz.1 / 2), -(sz.2 / 2), 0))
              (scaleM (sz.1, sz.2, 1))))) := by
  simp only [Quad.compute_transform, rotZv, translateM, scaleM, rotZM, M4.mul, M4.mk.injEq]
  refine ⟨?_, ?_, ?_, ?_, ?_, ?_, ?_, ?_, ?_, ?_, ?_, ?_, ?_, ?_, ?_, ?_⟩ <;> ring

/-- Association-list lookup, modelling `HashMap::get`. -/
def alookup {κ β : Type} [DecidableEq κ] (k : κ) : List (κ × β) → Option β
  | [] => none
  | (k', v) :: rest => if k' = k then some v else alookup k rest

/-- Association-list insert, modelling `HashMap::insert`: replaces the
binding of an existing key in place, otherwise appends. -/
def ainsert {κ β : Type} [DecidableEq κ] (k : κ) (v : β) : List (κ × β) → List (κ × β)
  | [] => [(k, v)]
  | (k', v') :: rest => if k' = k then (k, v) :: rest else (k', v') :: ainsert k v rest

/-- The error enum `AssetsManagerError` of src/core/src/assets.rs; the
`&'static str` type-name payloads are stood in for by the numeric type ids
of the model. -/
inductive AssetsManagerError (E : Type) where
  | AssetAlreadyRegistered (t : ℕ)
  | UnregisteredAsset (t : ℕ)
  | UnregisteredLoader (lt : ℕ)
  | LoadingError (e : E)
deriving DecidableEq, Repr

/-- `AssetHandle<T>`: a plain numeric id (the `PhantomData` type tag lives in
the indexing of the operations below). -/
structure AssetHandle where
  id : ℕ
deriving DecidableEq, Repr

/-- `AssetsStorage<T>`: a monotonic counter plus an id-to-value map. -/
structure AssetsStorage (α : Type) where
  next_id : ℕ
  storage : List (ℕ × α)

namespace AssetsStorage

/-- `AssetsStorage::new`. -/
def new {α : Type} : AssetsStorage α := ⟨0, []⟩

/-- `AssetsStorage::store_asset`: insert at `next_id`, bump the counter,
return the id as a handle. -/
def store_asset {α : Type} (s : AssetsStorage α) (asset : α) : AssetHandle × AssetsStorage α :=
  let handle := s.next_id
  (⟨handle⟩, { next_id := s.next_id + 1, storage := ainsert handle asset s.storage })

/-- `AssetsStorage::get_asset`: a direct lookup; `none` models the
`.unwrap()` panic on an absent id. -/
def get_asset {α : Type} (s : AssetsStorage α) (handle : AssetHandle) : Option α :=
  alookup handle.id s.storage

end AssetsStorage

/-- The `AssetsManager`: a map from asset-type identity to that type's
storage and a map from loader-type identity to the loader. Type erasure
(`Box<dyn Any>` + downcast) is modelled by a sigma over the numeric type id,
interpreted through a family `F`; a loader under key `lt` carries the id `t`
of the asset type it produces together with its `load` function
(`Src -> Result<F t, E>`). -/
structure AssetsManager (F : ℕ → Type) (Src E : Type) where
  storages : List (Sigma fun t : ℕ => AssetsStorage (F t))
  loaders : List (ℕ × Sigma fun t : ℕ => Src → Except E (F t))

namespace AssetsManager

variable {F : ℕ → Type} {Src E : Type}

/-- Lookup of the storage registered for asset type `t`; the dependent cast
models the always-matching `downcast_ref::<AssetsStorage<T>>()`. -/
def storagesLookup (F : ℕ → Type) (t : ℕ) :
    List (Sigma fun t' : ℕ => AssetsStorage (F t')) → Option (AssetsStorage (F t))
  | [] => none
  | ⟨t', s⟩ :: rest => if h : t' = t then some (h ▸ s) else storagesLookup F t rest

/-- `HashMap::insert` on the storages map: replace the entry for `t` in
place, or append a fresh one. -/
def storagesInsert (F : ℕ → Type) (t : ℕ) (s : AssetsStorage (F t)) :
    List (Sigma fun t' : ℕ => AssetsStorage (F t')) →
      List (Sigma fun t' : ℕ => AssetsStorage (F t'))
  | [] => [⟨t, s⟩]
  | ⟨t', s'⟩ :: rest =>
      if t' = t then ⟨t, s⟩ :: rest else ⟨t', s'⟩ :: storagesInsert F t s rest

/-- `AssetsManager::new`. -/
def new (F : ℕ → Type) (Src E : Type) : AssetsManager F Src E := ⟨[], []⟩

/-- `AssetsManager::register_assets_type::<T>`: unconditionally `insert` a
fresh empty storage under T's type id, then report `AssetAlreadyRegistered`
exactly when the insert displaced an old storage (mirroring the
insert-then-match structure of the source). -/
def register_assets_type (t : ℕ) (m : AssetsManager F Src E) :
    Except (AssetsManagerError E) Unit × AssetsManager F Src E :=
  let old_stroage := storagesLookup F t m.storages
  let m' : AssetsManager F Src E :=
    { m with storages := storagesInsert F t AssetsStorage.new m.storages }
  match old_stroage with
  | some _ => (Except.error (AssetsManagerError.AssetAlreadyRegistered t), m')
  | none => (Except.ok (), m')

/-- `AssetsManager::store_asset`: resolve T's storage (failing with
`UnregisteredAsset` as `get_storage_mut` does), store, and write the updated
storage back. -/
def store_asset (t : ℕ) (asset : F t) (m : AssetsManager F Src E) :
    Except (AssetsManagerError E) AssetHandle × AssetsManager F Src E :=
  match storagesLookup F t m.storages with
  | none => (Except.error (AssetsManagerError.UnregisteredAsset t), m)
  | some s =>
      let r := s.store_asset asset
      (Except.ok r.1, { m with storages := storagesInsert F t r.2 m.storages })

/-- `AssetsManager::get_asset`: `none` models both fatal `.unwrap()` panics
(unregistered type, or id absent from the storage). -/
def get_asset (t : ℕ) (handle : AssetHandle) (m : AssetsManager F Src E) : Option (F t) :=
  match storagesLookup F t m.storages with
  | none => none
  | some s => s.get_asset handle

/-- `AssetsManager::register_loader`: insert under the loader's own type id,
silently overwriting. -/
def register_loader (lt t : ℕ) (loader : Src → Except E (F t))
    (m : AssetsManager F Src E) : AssetsManager F Src E :=
  { m with loaders := ainsert lt (⟨t, loader⟩ : Sigma fun t' : ℕ => Src → Except E (F t')) m.loaders }

/-- `AssetsManager::get_loader::<TAsset, Loader, Src>`: lookup by the loader
type id then downcast; the downcast fixes the loader's asset type, so the
model checks the stored asset-type id against `t`. -/
def get_loader (lt t : ℕ) (m : AssetsManager F Src E) : Option (Src → Except E (F t)) :=
  match alookup lt m.loaders with
  | none => none
  | some ⟨t', f⟩ => if h : t' = t then some (h ▸ f) else none

/-- `AssetsManager::load_asset_with`: find the loader (else
`UnregisteredLoader`), run it (a loader error propagates as `LoadingError`
via the `From` impl), then resolve the storage and store (else
`UnregisteredAsset`). -/
def load_asset_with (lt t : ℕ) (source : Src) (m : AssetsManager F Src E) :
    Except (AssetsManagerError E) AssetHandle × AssetsManager F Src E :=
  match get_loader lt t m with
  | none => (Except.error (AssetsManagerError.UnregisteredLoader lt), m)
  | some loader =>
      match loader source with
      | Except.error e => (Except.error (AssetsManagerError.LoadingError e), m)
      | Except.ok asset =>
          match storagesLookup F t m.storages with
          | none => (Except.error (AssetsManagerError.UnregisteredAsset t), m)
          | some s =>
              let r := s.store_asset asset
              (Except.ok r.1, { m with storages := storagesInsert F t r.2 m.storages })

end AssetsManager

/-- `Texture2DCoordinates` (UV rectangle) of src/core/src/assets/texture.rs. -/
structure Texture2DCoordinates where
  size : ℚ × ℚ
  offset : ℚ × ℚ
deriving DecidableEq, Repr

/-- The `Default` impl: full rectangle, offset (0,0), size (1,1). -/
def Texture2DCoordinates.default : Texture2DCoordinates :=
  ⟨(1, 1), (0, 0)⟩

/-- One per-instance record (`QuadInstanceData`) of renderer2d.rs. -/
structure QuadInstanceData where
  model : M4
  color : ℚ × ℚ × ℚ × ℚ
  tex_coords_size : ℚ × ℚ
  tex_coords_offset : ℚ × ℚ
deriving DecidableEq, Repr

/-- GPU-side effects issued while rendering, recorded as an explicit trace:
buffer reallocation (with the element count it was sized to), buffer destroy,
an in-place buffer overwrite with the given instance data, binding a
texture's bind group, and an indexed instanced draw call (index count,
instance count). -/
inductive GpuEvent where
  | reallocBuffer (size : ℕ)
  | destroyBuffer
  | writeBuffer (data : List QuadInstanceData)
  | setBindGroup (texture : ℕ)
  | drawIndexed (indexCount instanceCount : ℕ)
deriving DecidableEq, Repr

/-- `QuadsInstanceDataBuffer`: the CPU-side instance list plus the GPU buffer
state (`instance_buffer : RefCell<Option<wgpu::Buffer>>` collapses to whether
a buffer exists, `buffer_len : Cell<usize>` is its element capacity). The
`Vec::with_capacity(quads_capacity)` hint of `new` has no observable effect
in the list model. -/
structure QuadsInstanceDataBuffer where
  quads : List QuadInstanceData
  instance_buffer : Bool
  buffer_len : ℕ
deriving DecidableEq, Repr

namespace QuadsInstanceDataBuffer

/-- `QuadsInstanceDataBuffer::new`. -/
def new : QuadsInstanceDataBuffer := ⟨[], false, 0⟩

/-- `QuadsInstanceDataBuffer::clear`: clears the instance list only. -/
def clear (b : QuadsInstanceDataBuffer) : QuadsInstanceDataBuffer :=
  { b with quads := [] }

/-- `QuadsInstanceDataBuffer::push`. -/
def push (b : QuadsInstanceDataBuffer) (quad : QuadInstanceData) : QuadsInstanceDataBuffer :=
  { b with quads := b.quads ++ [quad] }

/-- `QuadsInstanceDataBuffer::reallocate_instance_buffer`: create a buffer
holding exactly the current instances and record its length. -/
def reallocate_instance_buffer (b : QuadsInstanceDataBuffer) :
    QuadsInstanceDataBuffer × List GpuEvent :=
  ({ b with instance_buffer := true, buffer_len := b.quads.length },
   [GpuEvent.reallocBuffer b.quads.length])

/-- `QuadsInstanceDataBuffer::submit_to_render_pass`: early-return on an
empty instance list; allocate the buffer if it does not exist yet; destroy
and reallocate if it exists but is too small; otherwise overwrite it in
place; finally issue one indexed instanced draw call (6 indices, one
instance per record). -/
def submit_to_render_pass (b : QuadsInstanceDataBuffer) :
    QuadsInstanceDataBuffer × List GpuEvent :=
  if b.quads.length = 0 then (b, [])
  else
    let step :=
      if b.instance_buffer = false then
        b.reallocate_instance_buffer
      else if b.buffer_len < b.quads.length then
        let r := b.reallocate_instance_buffer
        (r.1, GpuEvent.destroyBuffer :: r.2)
      else
        (b, [GpuEvent.writeBuffer b.quads])
    (step.1, step.2 ++ [GpuEvent.drawIndexed 6 step.1.quads.length])

end QuadsInstanceDataBuffer

/-- The renderer state of `Renderer2D` relevant to frame recording: the
per-frame clear color and camera uniform and the batch map keyed by
(texture handle, depth index). The HashMap is modelled as an insertion-order
association list; `render_quads` sorts it before iterating. The GPU-constant
members (pipeline, quad geometry, camera buffer) have no model state. -/
structure Renderer2D where
  clear_color : ℚ × ℚ × ℚ × ℚ
  camera_uniform : Option M4
  white_texture : ℕ
  quads_instances : List ((ℕ × ℤ) × QuadsInstanceDataBuffer)
deriving DecidableEq, Repr

namespace Renderer2D

/-- The state just after `Renderer2D::new`: the constructor's default clear
color, no camera uniform, the preloaded 1x1 white texture's handle, and an
empty batch map. -/
def init (white : ℕ) : Renderer2D where
  clear_color := (1/10, 1/10, 1/5, 1)
  camera_uniform := none
  white_texture := white
  quads_instances := []

/-- `Renderer2D::begin`: store the clear color and camera matrix and clear
every existing batch's instance list, keeping the batch objects. -/
def begin (r : Renderer2D) (clear_color : ℚ × ℚ × ℚ × ℚ) (camera : M4) : Renderer2D :=
  { r with
    clear_color := clear_color
    camera_uniform := some camera
    quads_instances := r.quads_instances.map fun kb => (kb.1, kb.2.clear) }

/-- `entry(key).or_insert_with(new).push(inst)`: push onto the batch of the
key, lazily creating it (a fresh key lands at the end of the map, i.e. the
model fixes one incidental HashMap layout; every property proved below is
insensitive to it because `render_quads` sorts the entries). -/
def entryPush (key : ℕ × ℤ) (inst : QuadInstanceData) :
    List ((ℕ × ℤ) × QuadsInstanceDataBuffer) → List ((ℕ × ℤ) × QuadsInstanceDataBuffer)
  | [] => [(key, QuadsInstanceDataBuffer.new.push inst)]
  | (k, b) :: rest =>
      if k = key then (k, b.push inst) :: rest else (k, b) :: entryPush key inst rest

/-- `Renderer2D::draw_quad_textured`: append one instance record built from
the quad's transform, color and the UV rectangle onto the batch keyed by
(texture handle, quad.z_index). -/
def draw_quad_textured (cosd sind : ℚ → ℚ) (r : Renderer2D) (quad : Quad)
    (texture_handle : ℕ) (atlas_coords : Texture2DCoordinates) : Renderer2D :=
  let inst : QuadInstanceData :=
    { model := (Quad.get_transform cosd sind quad).1
      color := quad.color
      tex_coords_size := atlas_coords.size
      tex_coords_offset := atlas_coords.offset }
  { r with quads_instances := entryPush (texture_handle, quad.z_index) inst r.quads_instances }

/-- `Renderer2D::draw_quad`: sugar for `draw_quad_textured` with the white
texture and the default full-rectangle UV. -/
def draw_quad (cosd sind : ℚ → ℚ) (r : Renderer2D) (quad : Quad) : Renderer2D :=
  draw_quad_textured cosd sind r quad r.white_texture Texture2DCoordinates.default

/-- Stable insertion into a list sorted ascending by depth index. -/
def insertByZ (x : (ℕ × ℤ) × QuadsInstanceDataBuffer) :
    List ((ℕ × ℤ) × QuadsInstanceDataBuffer) → List ((ℕ × ℤ) × QuadsInstanceDataBuffer)
  | [] => [x]
  | y :: ys => if x.1.2 ≤ y.1.2 then x :: y :: ys else y :: insertByZ x ys

/-- `entries.sort_by_key(|((_, z), _)| z)`: sort the batch entries ascending
by depth index (Rust's sort is stable; ties keep the incidental map order,
which the source leaves unspecified). -/
def sortByZ (l : List ((ℕ × ℤ) × QuadsInstanceDataBuffer)) :
    List ((ℕ × ℤ) × QuadsInstanceDataBuffer) :=
  l.foldr insertByZ []

/-- `Renderer2D::render_quads`: iterate the batches sorted ascending by
depth index; for each, bind its texture's bind group and submit the batch. -/
def render_quads (r : Renderer2D) : List GpuEvent :=
  (sortByZ r.quads_instances).flatMap fun kb =>
    GpuEvent.setBindGroup kb.1.1 :: kb.2.submit_to_render_pass.2

/-- `Renderer2D::submit` (its render-pass body): emit the event trace of
`render_quads` and persist each batch's updated GPU buffer state (the
instance lists are untouched; only `begin` clears them). -/
def submit (r : Renderer2D) : Renderer2D × List GpuEvent :=
  ({ r with
      quads_instances := r.quads_instances.map fun kb => (kb.1, kb.2.submit_to_render_pass.1) },
   render_quads r)

/-- The draw calls of one submission, in issue order, tagged with the batch
key they were issued for: one `(key, instance count)` per non-empty batch,
in ascending depth order. -/
def submitDraws (r : Renderer2D) : List ((ℕ × ℤ) × ℕ) :=
  (sortByZ r.quads_instances).filterMap fun kb =>
    if kb.2.quads.length = 0 then none else some (kb.1, kb.2.quads.length)

/-- The instance list currently recorded for a batch key (empty when the
batch does not exist). -/
def batchQuads (r : Renderer2D) (k : ℕ × ℤ) : List QuadInstanceData :=
  match alookup k r.quads_instances with
  | none => []
  | some b => b.quads

end Renderer2D

/-- One recorded `draw_quad_textured` call: its quad, texture handle and UV
rectangle. -/
structure DrawCmd where
  quad : Quad
  texture : ℕ
  coords : Texture2DCoordinates
deriving DecidableEq, Repr

/-- The batch key a draw command routes to. -/
def DrawCmd.key (d : DrawCmd) : ℕ × ℤ := (d.texture, d.quad.z_index)

/-- The instance record a draw command appends. -/
def DrawCmd.inst (cosd sind : ℚ → ℚ) (d : DrawCmd) : QuadInstanceData where
  model := (Quad.get_transform cosd sind d.quad).1
  color := d.quad.color
  tex_coords_size := d.coords.size
  tex_coords_offset := d.coords.offset

/-- Applying a sequence of `draw_quad_textured` calls in order. -/
def applyDraws (cosd sind : ℚ → ℚ) (ds : List DrawCmd) (r : Renderer2D) : Renderer2D :=
  ds.foldl (fun r' d => Renderer2D.draw_quad_textured cosd sind r' d.quad d.texture d.coords) r

/-! ### Association-map lemmas -/

theorem alookup_ainsert_self {κ β : Type} [DecidableEq κ] (k : κ) (v : β) :
    ∀ l : List (κ × β), alookup k (ainsert k v l) = some v
  | [] => by simp [ainsert, alookup]
  | (k', v') :: rest => by
      by_cases h : k' = k
      · simp [ainsert, alookup, h]
      · simp [ainsert, alookup, h, alookup_ainsert_self k v rest]

theorem alookup_mem {κ β : Type} [DecidableEq κ] (k : κ) (b : β) :
    ∀ l : List (κ × β), alookup k l = some b → (k, b) ∈ l
  | [], h => by simp [alookup] at h
  | (k', v') :: rest, h => by
      by_cases hk : k' = k
      · subst hk
        simp [alookup] at h
        simp [h]
      · simp [alookup, hk] at h
        exact List.mem_cons_of_mem _ (alookup_mem k b rest h)

theorem storagesLookup_storagesInsert_self (F : ℕ → Type) (t : ℕ) (s : AssetsStorage (F t)) :
    ∀ l, AssetsManager.storagesLookup F t (AssetsManager.storagesInsert F t s l) = some s
  | [] => by simp [AssetsManager.storagesInsert, AssetsManager.storagesLookup]
  | ⟨t', s'⟩ :: rest => by
      by_cases h : t' = t
      · subst h
        simp [AssetsManager.storagesInsert, AssetsManager.storagesLookup]
      · simp [AssetsManager.storagesInsert, AssetsManager.storagesLookup, h,
          storagesLookup_storagesInsert_self F t s rest]

/-! ### Concrete instances used by the evaluation theorems and witnesses -/

/-- A concrete asset-type interpretation: every type id stores naturals. -/
abbrev wF : ℕ → Type := fun _ => ℕ

/-- The empty registry. -/
def wm0 : AssetsManager wF ℕ ℕ := AssetsManager.new wF ℕ ℕ

/-- Registry after a first `register_assets_type` for type id 0. -/
def wm1 : AssetsManager wF ℕ ℕ := (AssetsManager.register_assets_type 0 wm0).2

/-- Registry after additionally storing the asset 42 in type 0's storage
(the returned handle has id 0). -/
def wm2 : AssetsManager wF ℕ ℕ := (AssetsManager.store_asset 0 42 wm1).2

/-- A concrete loader for asset type 0 under loader type id 7: fails with
error 9 on source 0, otherwise constructs the source itself. -/
def wloader : ℕ → Except ℕ (wF 0) := fun n => if n = 0 then Except.error 9 else Except.ok n

/-- Registry with `wloader` registered but no storage registered at all. -/
def wmL : AssetsManager wF ℕ ℕ := AssetsManager.register_loader 7 0 wloader wm0

/-- C1: evaluating the code on the failing input. Registering type 0 a
second time, after an asset was stored, does return `AssetAlreadyRegistered`
— but the `insert`-then-check order of `register_assets_type` has replaced
the first storage with a fresh empty one: the asset 42, retrievable before
the call, is gone afterwards, so the claimed "state unchanged on error" is
violated by the code. -/
theorem register_twice_wipes_storage :
    (AssetsManager.register_assets_type 0 wm2).1
        = Except.error (AssetsManagerError.AssetAlreadyRegistered 0)
    ∧ AssetsManager.get_asset 0 ⟨0⟩ wm2 = some 42
    ∧ AssetsManager.get_asset 0 ⟨0⟩ (AssetsManager.register_assets_type 0 wm2).2 = none :=
  ⟨rfl, rfl, rfl⟩

/-- C4: evaluating the code on the failing input. The handle of id 0 was
returned by `store_asset`, yet after the subsequent (failing)
`register_assets_type` call the fatal lookup-failure branch of `get_asset`
is reached for it: the claimed lifetime validity of issued handles is
violated by the code. -/
theorem issued_handle_invalidated :
    (AssetsManager.store_asset 0 42 wm1).1 = Except.ok ⟨0⟩
    ∧ AssetsManager.get_asset 0 ⟨0⟩ (AssetsManager.register_assets_type 0 wm2).2 = none :=
  ⟨rfl, rfl⟩

/-- C9: in every registry state in which asset type `t` is registered (its
storage lookup succeeds), `store_asset` returns `Ok` with the storage's
current `next_id` as the handle, and `get_asset` with that handle on the
resulting registry yields exactly the stored value. -/
theorem store_then_get (F : ℕ → Type) (Src E : Type) (m : AssetsManager F Src E)
    (t : ℕ) (v : F t) (s : AssetsStorage (F t))
    (hreg : AssetsManager.storagesLookup F t m.storages = some s) :
    (AssetsManager.store_asset t v m).1 = Except.ok ⟨s.next_id⟩
    ∧ AssetsManager.get_asset t ⟨s.next_id⟩ (AssetsManager.store_asset t v m).2 = some v := by
  unfold AssetsManager.store_asset
  rw [hreg]
  refine ⟨rfl, ?_⟩
  unfold AssetsManager.get_asset
  rw [storagesLookup_storagesInsert_self]
  unfold AssetsStorage.get_asset AssetsStorage.store_asset
  exact alookup_ainsert_self s.next_id v s.storage

/-- Witness for C9: storing 42 for type 0 in the freshly registered registry
and reading it back through the returned handle yields 42. -/
theorem store_then_get_witness :
    AssetsManager.get_asset 0 ⟨0⟩ (AssetsManager.store_asset 0 42 wm1).2 = some 42 :=
  (store_then_get wF ℕ ℕ wm1 0 42 AssetsStorage.new rfl).2

/-- C10: with a loader registered (under loader type id `lt`, producing
asset type `t`) but `t` unregistered, `load_asset_with` runs the loader
first: a loader error comes back as `LoadingError`, and a loader success
still fails with `UnregisteredAsset` (not `UnregisteredLoader`), in both
cases returning the registry unchanged (storages and loaders untouched, the
constructed asset discarded). -/
theorem load_asset_with_unregistered_asset (F : ℕ → Type) (Src E : Type)
    (m : AssetsManager F Src E) (lt t : ℕ) (source : Src)
    (f : Src → Except E (F t))
    (hl : AssetsManager.get_loader lt t m = some f)
    (hs : AssetsManager.storagesLookup F t m.storages = none) :
    (∀ e, f source = Except.error e →
        AssetsManager.load_asset_with lt t source m
          = (Except.error (AssetsManagerError.LoadingError e), m))
    ∧ (∀ a, f source = Except.ok a →
        AssetsManager.load_asset_with lt t source m
          = (Except.error (AssetsManagerError.UnregisteredAsset t), m)) := by
  constructor
  · intro e he
    simp [AssetsManager.load_asset_with, hl, he]
  · intro a ha
    simp [AssetsManager.load_asset_with, hl, ha, hs]

/-- Witness for C10: on the concrete registry with loader 7 registered and
no storage, loading from source 1 (which the loader accepts) fails with
`UnregisteredAsset 0` and leaves the registry unchanged. -/
theorem load_asset_with_unregistered_asset_witness :
    AssetsManager.load_asset_with 7 0 1 wmL
      = (Except.error (AssetsManagerError.UnregisteredAsset 0), wmL) :=
  (load_asset_with_unregistered_asset wF ℕ ℕ wmL 7 0 1 wloader rfl rfl).2 1 rfl

/-! ### Quad dirty-flag protocol -/

/-- A concrete idealized cosine-of-degrees function for witnesses. -/
def wcos : ℚ → ℚ := fun _ => 1

/-- A concrete idealized sine-of-degrees function for witnesses. -/
def wsin : ℚ → ℚ := fun _ => 0

/-- C5 (amended): `set_position`, `set_size`, `set_rotation` and `rotate`
each set the dirty flag; a direct write to the public `z_index` field leaves
the flag as it was (it is a plain `pub i32` field, no setter runs);
`get_transform` returns the cached matrix untouched when the flag is clear,
always leaves the flag clear, and a repeated `get_transform` with no
interleaved mutator returns the same matrix and state. -/
theorem quad_dirty_flag_protocol (cosd sind : ℚ → ℚ) (q : Quad) (p sz : ℚ × ℚ)
    (rot dr : ℚ) (z : ℤ) :
    (q.set_position p).transform_needs_update = true
    ∧ (q.set_size sz).transform_needs_update = true
    ∧ (q.set_rotation rot).transform_needs_update = true
    ∧ (q.rotate dr).transform_needs_update = true
    ∧ (q.set_z_index z).transform_needs_update = q.transform_needs_update
    ∧ (q.transform_needs_update = false →
        Quad.get_transform cosd sind q = (q.transform, q))
    ∧ (Quad.get_transform cosd sind q).2.transform_needs_update = false
    ∧ Quad.get_transform cosd sind (Quad.get_transform cosd sind q).2
        = ((Quad.get_transform cosd sind q).1, (Quad.get_transform cosd sind q).2) := by
  refine ⟨rfl, rfl, rfl, rfl, rfl, ?_, ?_, ?_⟩
  · intro h
    simp [Quad.get_transform, h]
  · by_cases h : q.transform_needs_update <;> simp [Quad.get_transform, h]
  · by_cases h : q.transform_needs_update <;> simp [Quad.get_transform, h]

/-- Witness for C5: on a freshly constructed quad (clean flag),
`get_transform` returns the cached matrix and the unchanged quad. -/
theorem quad_dirty_flag_protocol_witness :
    Quad.get_transform wcos wsin (Quad.with_position_and_size wcos wsin (0, 0) (2, 2))
      = ((Quad.with_position_and_size wcos wsin (0, 0) (2, 2)).transform,
         Quad.with_position_and_size wcos wsin (0, 0) (2, 2)) :=
  (quad_dirty_flag_protocol wcos wsin
      (Quad.with_position_and_size wcos wsin (0, 0) (2, 2))
      (0, 0) (0, 0) 0 0 0).2.2.2.2.2.1 rfl

/-- Counterexample to C5 as stated: the claim includes "a write to the
depth-index field sets the dirty flag", but after a `z_index` field write on
a freshly constructed quad (whose flag is clear) the dirty flag is still
`false`. -/
theorem depth_index_write_leaves_flag_clear :
    ((Quad.with_position_and_size wcos wsin (0, 0) (1, 1)).set_z_index
        5).transform_needs_update = false :=
  rfl

/-! ### Batch-map lemmas -/

theorem alookup_entryPush_self (k : ℕ × ℤ) (i : QuadInstanceData) :
    ∀ l, alookup k (Renderer2D.entryPush k i l)
      = some (((alookup k l).getD QuadsInstanceDataBuffer.new).push i)
  | [] => by simp [Renderer2D.entryPush, alookup]
  | (k0, b) :: rest => by
      by_cases h : k0 = k
      · subst h
        simp [Renderer2D.entryPush, alookup]
      · simp [Renderer2D.entryPush, alookup, h, alookup_entryPush_self k i rest]

theorem alookup_entryPush_ne (k q : ℕ × ℤ) (i : QuadInstanceData) (hne : q ≠ k) :
    ∀ l, alookup q (Renderer2D.entryPush k i l) = alookup q l
  | [] => by simp [Renderer2D.entryPush, alookup, Ne.symm hne]
  | (k0, b) :: rest => by
      by_cases h : k0 = k
      · subst h
        simp [Renderer2D.entryPush, alookup, Ne.symm hne]
      · simp [Renderer2D.entryPush, alookup, h, alookup_entryPush_ne k q i hne rest]

theorem mem_keys_entryPush (k : ℕ × ℤ) (i : QuadInstanceData) (a : ℕ × ℤ) :
    ∀ l, a ∈ (Renderer2D.entryPush k i l).map Prod.fst → a ∈ l.map Prod.fst ∨ a = k
  | [], h => by
      simp [Renderer2D.entryPush] at h
      exact Or.inr h
  | (k0, b) :: rest, h => by
      by_cases hk : k0 = k
      · subst hk
        rw [show Renderer2D.entryPush k0 i ((k0, b) :: rest)
              = (k0, b.push i) :: rest from by simp [Renderer2D.entryPush],
          List.map_cons] at h
        rcases List.mem_cons.1 h with rfl | h
        · exact Or.inl (by simp)
        · exact Or.inl (by simp [h])
      · rw [show Renderer2D.entryPush k i ((k0, b) :: rest)
              = (k0, b) :: Renderer2D.entryPush k i rest from by
            simp [Renderer2D.entryPush, hk],
          List.map_cons] at h
        rcases List.mem_cons.1 h with rfl | h
        · exact Or.inl (by simp)
        · rcases mem_keys_entryPush k i a rest h with h' | h'
          · exact Or.inl (by simp [h'])
          · exact Or.inr h'

theorem nodup_keys_entryPush (k : ℕ × ℤ) (i : QuadInstanceData) :
    ∀ l, (l.map Prod.fst).Nodup → ((Renderer2D.entryPush k i l).map Prod.fst).Nodup
  | [], _ => by simp [Renderer2D.entryPush]
  | (k0, b) :: rest, hnd => by
      obtain ⟨h0, hrest⟩ := List.nodup_cons.1 hnd
      by_cases hk : k0 = k
      · subst hk
        simpa [Renderer2D.entryPush] using hnd
      · have hl : Renderer2D.entryPush k i ((k0, b) :: rest)
            = (k0, b) :: Renderer2D.entryPush k i rest := by
          simp [Renderer2D.entryPush, hk]
        rw [hl, List.map_cons]
        refine List.nodup_cons.2 ⟨?_, nodup_keys_entryPush k i rest hrest⟩
        intro hmem
        rcases mem_keys_entryPush k i k0 rest hmem with h' | h'
        · exact h0 h'
        · exact hk h'

theorem batchQuads_draw (cosd sind : ℚ → ℚ) (r : Renderer2D) (d : DrawCmd) (k : ℕ × ℤ) :
    Renderer2D.batchQuads
        (Renderer2D.draw_quad_textured cosd sind r d.quad d.texture d.coords) k
      = Renderer2D.batchQuads r k
          ++ (if d.key = k then [DrawCmd.inst cosd sind d] else []) := by
  unfold Renderer2D.batchQuads Renderer2D.draw_quad_textured
  by_cases hk : d.key = k
  · rw [if_pos hk]
    have hk' : (d.texture, d.quad.z_index) = k := hk
    rw [show ((d.texture, d.quad.z_index) : ℕ × ℤ) = k from hk']
    rw [alookup_entryPush_self]
    cases halo : alookup k r.quads_instances <;>
      simp [QuadsInstanceDataBuffer.push, QuadsInstanceDataBuffer.new, DrawCmd.inst]
  · rw [if_neg hk]
    have hk' : k ≠ ((d.texture, d.quad.z_index) : ℕ × ℤ) := fun h => hk (Eq.symm h)
    rw [alookup_entryPush_ne _ _ _ hk']
    simp

theorem batchQuads_applyDraws (cosd sind : ℚ → ℚ) :
    ∀ (ds : List DrawCmd) (r : Renderer2D) (k : ℕ × ℤ),
      Renderer2D.batchQuads (applyDraws cosd sind ds r) k
        = Renderer2D.batchQuads r k
            ++ (ds.filter fun d => d.key = k).map (DrawCmd.inst cosd sind)
  | [], r, k => by simp [applyDraws]
  | d :: ds, r, k => by
      have ih := batchQuads_applyDraws cosd sind ds
        (Renderer2D.draw_quad_textured cosd sind r d.quad d.texture d.coords) k
      rw [show applyDraws cosd sind (d :: ds) r
            = applyDraws cosd sind ds
                (Renderer2D.draw_quad_textured cosd sind r d.quad d.texture d.coords)
          from rfl]
      rw [ih, batchQuads_draw cosd sind r d k]
      by_cases hk : d.key = k
      · simp [List.filter_cons, hk]
      · simp [List.filter_cons, hk]

theorem keys_nodup_applyDraws (cosd sind : ℚ → ℚ) :
    ∀ (ds : List DrawCmd) (r : Renderer2D),
      (r.quads_instances.map Prod.fst).Nodup →
      ((applyDraws cosd sind ds r).quads_instances.map Prod.fst).Nodup
  | [], _, h => h
  | d :: ds, r, h =>
      keys_nodup_applyDraws cosd sind ds
        (Renderer2D.draw_quad_textured cosd sind r d.quad d.texture d.coords)
        (nodup_keys_entryPush _ _ r.quads_instances h)

theorem alookup_map_clear (k : ℕ × ℤ) :
    ∀ l : List ((ℕ × ℤ) × QuadsInstanceDataBuffer),
      alookup k (l.map fun kb => (kb.1, kb.2.clear))
        = (alookup k l).map QuadsInstanceDataBuffer.clear
  | [] => rfl
  | (k0, b) :: rest => by
      by_cases h : k0 = k <;> simp [alookup, h, alookup_map_clear k rest]

theorem batchQuads_begin (r : Renderer2D) (cc : ℚ × ℚ × ℚ × ℚ) (cam : M4) (k : ℕ × ℤ) :
    Renderer2D.batchQuads (Renderer2D.begin r cc cam) k = [] := by
  unfold Renderer2D.batchQuads Renderer2D.begin
  rw [alookup_map_clear]
  cases alookup k r.quads_instances <;> simp [QuadsInstanceDataBuffer.clear]

theorem begin_quads_empty (r : Renderer2D) (cc : ℚ × ℚ × ℚ × ℚ) (cam : M4) :
    ∀ kb ∈ (Renderer2D.begin r cc cam).quads_instances, kb.2.quads = [] := by
  intro kb hkb
  obtain ⟨kb0, _, rfl⟩ := List.mem_map.1 hkb
  rfl

/-! ### Sorting and event-trace lemmas -/

theorem perm_insertByZ (x : (ℕ × ℤ) × QuadsInstanceDataBuffer) :
    ∀ l, (Renderer2D.insertByZ x l).Perm (x :: l)
  | [] => List.Perm.refl _
  | y :: ys => by
      unfold Renderer2D.insertByZ
      by_cases h : x.1.2 ≤ y.1.2
      · rw [if_pos h]
      · rw [if_neg h]
        exact ((perm_insertByZ x ys).cons y).trans (List.Perm.swap x y ys)

theorem perm_sortByZ : ∀ l, (Renderer2D.sortByZ l).Perm l
  | [] => List.Perm.refl _
  | x :: l => (perm_insertByZ x (Renderer2D.sortByZ l)).trans ((perm_sortByZ l).cons x)

theorem sorted_insertByZ (x : (ℕ × ℤ) × QuadsInstanceDataBuffer) :
    ∀ l, l.Pairwise (fun a b => a.1.2 ≤ b.1.2) →
      (Renderer2D.insertByZ x l).Pairwise (fun a b => a.1.2 ≤ b.1.2)
  | [], _ => by simp [Renderer2D.insertByZ]
  | y :: ys, hp => by
      obtain ⟨hy, hys⟩ := List.pairwise_cons.1 hp
      unfold Renderer2D.insertByZ
      by_cases h : x.1.2 ≤ y.1.2
      · rw [if_pos h]
        refine List.pairwise_cons.2 ⟨?_, hp⟩
        intro b hb
        rcases List.mem_cons.1 hb with rfl | hb'
        · exact h
        · exact le_trans h (hy b hb')
      · rw [if_neg h]
        have hyx : y.1.2 ≤ x.1.2 := le_of_lt (lt_of_not_le h)
        refine List.pairwise_cons.2 ⟨?_, sorted_insertByZ x ys hys⟩
        intro b hb
        rcases List.mem_cons.1 ((perm_insertByZ x ys).subset hb) with rfl | hb'
        · exact hyx
        · exact hy b hb'

theorem sorted_sortByZ : ∀ l, (Renderer2D.sortByZ l).Pairwise (fun a b => a.1.2 ≤ b.1.2)
  | [] => List.Pairwise.nil
  | x :: l => sorted_insertByZ x (Renderer2D.sortByZ l) (sorted_sortByZ l)

theorem pairwise_two_sublist {α : Type} {R : α → α → Prop} {a b : α} :
    ∀ {l : List α}, l.Pairwise R → a ∈ l → b ∈ l → ¬ R b a → a ≠ b →
      List.Sublist [a, b] l
  | [], _, ha, _, _, _ => absurd ha (List.not_mem_nil a)
  | x :: rest, hp, ha, hb, hR, hne => by
      obtain ⟨hx, hrest⟩ := List.pairwise_cons.1 hp
      rcases List.mem_cons.1 ha with rfl | ha'
      · rcases List.mem_cons.1 hb with rfl | hb'
        · exact absurd rfl hne
        · exact List.Sublist.cons₂ a (List.singleton_sublist.2 hb')
      · rcases List.mem_cons.1 hb with rfl | hb'
        · exact absurd (hx a ha') hR
        · exact List.Sublist.cons x (pairwise_two_sublist hrest ha' hb' hR hne)

/-- The reallocation events of a trace, with the size each was issued at. -/
def reallocEvents (evs : List GpuEvent) : List ℕ :=
  evs.filterMap fun e =>
    match e with
    | GpuEvent.reallocBuffer n => some n
    | _ => none

/-- The draw-call events of a trace, in order. -/
def drawEvents (evs : List GpuEvent) : List GpuEvent :=
  evs.filter fun e =>
    match e with
    | GpuEvent.drawIndexed _ _ => true
    | _ => false

theorem drawEvents_submit_batch (b : QuadsInstanceDataBuffer) :
    drawEvents b.submit_to_render_pass.2
      = if b.quads.length = 0 then []
        else [GpuEvent.drawIndexed 6 b.quads.length] := by
  unfold QuadsInstanceDataBuffer.submit_to_render_pass
  by_cases h0 : b.quads.length = 0
  · simp [h0, drawEvents]
  · rw [if_neg h0]
    by_cases h1 : b.instance_buffer = false
    · simp [h0, h1, QuadsInstanceDataBuffer.reallocate_instance_buffer, drawEvents]
    · by_cases h2 : b.buffer_len < b.quads.length
      · simp [h0, h1, h2, QuadsInstanceDataBuffer.reallocate_instance_buffer, drawEvents]
      · simp [h0, h1, h2, drawEvents]

theorem drawEvents_append (a b : List GpuEvent) :
    drawEvents (a ++ b) = drawEvents a ++ drawEvents b :=
  List.filter_append a b

theorem drawEvents_render_quads (r : Renderer2D) :
    drawEvents (Renderer2D.render_quads r)
      = (Renderer2D.submitDraws r).map fun e => GpuEvent.drawIndexed 6 e.2 := by
  unfold Renderer2D.render_quads Renderer2D.submitDraws
  induction Renderer2D.sortByZ r.quads_instances with
  | nil => rfl
  | cons kb l ih =>
      rw [List.flatMap_cons, List.filterMap_cons, drawEvents_append]
      rw [show drawEvents (GpuEvent.setBindGroup kb.1.1 :: kb.2.submit_to_render_pass.2)
            = drawEvents kb.2.submit_to_render_pass.2 from rfl]
      rw [drawEvents_submit_batch kb.2, ih]
      by_cases h0 : kb.2.quads.length = 0
      · simp [h0]
      · simp [h0]

theorem filter_key_filterMap (k : ℕ × ℤ) :
    ∀ l : List ((ℕ × ℤ) × QuadsInstanceDataBuffer),
      ((l.filterMap fun kb =>
          if kb.2.quads.length = 0 then none
          else some (kb.1, kb.2.quads.length)).filter fun e => e.1 = k)
        = (l.filter fun kb => kb.1 = k).filterMap fun kb =>
            if kb.2.quads.length = 0 then none else some (kb.1, kb.2.quads.length)
  | [] => rfl
  | kb :: rest => by
      by_cases h0 : kb.2.quads.length = 0
      · by_cases hk : kb.1 = k <;>
          simp [List.filterMap_cons, List.filter_cons, h0, hk,
            filter_key_filterMap k rest, -List.length_eq_zero]
      · by_cases hk : kb.1 = k
        · simp [List.filterMap_cons, List.filter_cons, h0, hk,
            filter_key_filterMap k rest, -List.length_eq_zero]
        · simp [List.filterMap_cons, List.filter_cons, h0, hk,
            filter_key_filterMap k rest, -List.length_eq_zero]

theorem filter_key_eq_nil (k : ℕ × ℤ) :
    ∀ l : List ((ℕ × ℤ) × QuadsInstanceDataBuffer),
      k ∉ l.map Prod.fst → (l.filter fun kb => kb.1 = k) = []
  | [], _ => rfl
  | kb :: rest, h => by
      have hk : kb.1 ≠ k := fun he => h (by simp [he])
      have hrest : k ∉ rest.map Prod.fst := fun he => h (by simp [he])
      simp [List.filter_cons, hk, filter_key_eq_nil k rest hrest]

theorem filter_key_singleton (k : ℕ × ℤ) (b : QuadsInstanceDataBuffer) :
    ∀ l : List ((ℕ × ℤ) × QuadsInstanceDataBuffer),
      (l.map Prod.fst).Nodup → alookup k l = some b →
      (l.filter fun kb => kb.1 = k) = [(k, b)]
  | [], _, halo => by simp [alookup] at halo
  | (k0, b0) :: rest, hnd, halo => by
      obtain ⟨h0, hrest⟩ := List.nodup_cons.1 hnd
      by_cases hk : k0 = k
      · subst hk
        rw [show alookup k0 ((k0, b0) :: rest) = some b0 from by simp [alookup]] at halo
        injection halo with hb
        subst hb
        have hnil : (rest.filter fun kb => kb.1 = k0) = [] :=
          filter_key_eq_nil k0 rest h0
        simp [List.filter_cons, hnil]
      · rw [show alookup k ((k0, b0) :: rest) = alookup k rest from by
            simp [alookup, hk]] at halo
        simp [List.filter_cons, hk, filter_key_singleton k b rest hrest halo]

/-! ### Renderer claims -/

/-- C2: at submit, batches are iterated ascending by depth index: any two
recorded (non-empty) batches with depth d1 < d2 contribute two separate draw
calls, the d1 batch's strictly before the d2 batch's (stated as the ordered
two-element sublist of the keyed draw-call sequence of the submission);
moreover the draw-call events of the actual `submit` trace are exactly that
sequence, in the same order. -/
theorem submit_draws_depth_ordered (r : Renderer2D) (k1 k2 : ℕ × ℤ)
    (b1 b2 : QuadsInstanceDataBuffer)
    (h1 : (k1, b1) ∈ r.quads_instances) (h2 : (k2, b2) ∈ r.quads_instances)
    (hz : k1.2 < k2.2) (hn1 : b1.quads ≠ []) (hn2 : b2.quads ≠ []) :
    List.Sublist [(k1, b1.quads.length), (k2, b2.quads.length)]
        (Renderer2D.submitDraws r)
    ∧ drawEvents (Renderer2D.submit r).2
        = (Renderer2D.submitDraws r).map fun e => GpuEvent.drawIndexed 6 e.2 := by
  constructor
  · have hm1 : ((k1, b1) : (ℕ × ℤ) × QuadsInstanceDataBuffer)
        ∈ Renderer2D.sortByZ r.quads_instances :=
      (perm_sortByZ r.quads_instances).mem_iff.2 h1
    have hm2 : ((k2, b2) : (ℕ × ℤ) × QuadsInstanceDataBuffer)
        ∈ Renderer2D.sortByZ r.quads_instances :=
      (perm_sortByZ r.quads_instances).mem_iff.2 h2
    have hne : ((k1, b1) : (ℕ × ℤ) × QuadsInstanceDataBuffer) ≠ (k2, b2) := by
      intro h
      exact absurd (congrArg (fun e => e.1.2) h) (ne_of_lt hz)
    have hR : ¬ ((k2, b2) : (ℕ × ℤ) × QuadsInstanceDataBuffer).1.2 ≤ (k1, b1).1.2 :=
      not_le.2 hz
    have hsub := pairwise_two_sublist (sorted_sortByZ r.quads_instances) hm1 hm2 hR hne
    have hfm := hsub.filterMap
      (fun kb => if kb.2.quads.length = 0 then none else some (kb.1, kb.2.quads.length))
    have hl1 : ¬ (b1.quads.length = 0) := fun h => hn1 (List.length_eq_zero.1 h)
    have hl2 : ¬ (b2.quads.length = 0) := fun h => hn2 (List.length_eq_zero.1 h)
    have hpair : (List.filterMap
        (fun kb => if kb.2.quads.length = 0 then none else some (kb.1, kb.2.quads.length))
        [(k1, b1), (k2, b2)])
          = [(k1, b1.quads.length), (k2, b2.quads.length)] := by
      simp [List.filterMap_cons, hl1, hl2, -List.length_eq_zero]
    unfold Renderer2D.submitDraws
    rw [← hpair]
    exact hfm
  · exact drawEvents_render_quads r

/-- C3: starting from a post-`begin` state (all instance lists empty, batch
keys distinct), any sequence of `draw_quad_textured` calls accumulates the
calls sharing one (texture, depth) key into the single batch of that key, in
call order; and when at least one call hit the key, the submission issues
exactly one draw call for it, with instance count equal to the number of
those calls. -/
theorem draw_batching_single_draw_call (cosd sind : ℚ → ℚ) (r : Renderer2D)
    (ds : List DrawCmd) (k : ℕ × ℤ)
    (hnd : (r.quads_instances.map Prod.fst).Nodup)
    (hem : ∀ kb ∈ r.quads_instances, kb.2.quads = []) :
    Renderer2D.batchQuads (applyDraws cosd sind ds r) k
        = (ds.filter fun d => d.key = k).map (DrawCmd.inst cosd sind)
    ∧ ((ds.filter fun d => d.key = k) ≠ [] →
        ((Renderer2D.submitDraws (applyDraws cosd sind ds r)).filter fun e => e.1 = k)
          = [(k, (ds.filter fun d => d.key = k).length)]) := by
  have hempty : Renderer2D.batchQuads r k = [] := by
    unfold Renderer2D.batchQuads
    cases halo : alookup k r.quads_instances with
    | none => rfl
    | some b => exact hem (k, b) (alookup_mem k b r.quads_instances halo)
  have hbatch : Renderer2D.batchQuads (applyDraws cosd sind ds r) k
      = (ds.filter fun d => d.key = k).map (DrawCmd.inst cosd sind) := by
    rw [batchQuads_applyDraws cosd sind ds r k, hempty, List.nil_append]
  refine ⟨hbatch, ?_⟩
  intro hne
  have hnd' := keys_nodup_applyDraws cosd sind ds r hnd
  cases halo : alookup k (applyDraws cosd sind ds r).quads_instances with
  | none =>
      exfalso
      apply hne
      have hbq : Renderer2D.batchQuads (applyDraws cosd sind ds r) k = [] := by
        unfold Renderer2D.batchQuads
        rw [halo]
      rw [hbatch] at hbq
      exact List.map_eq_nil_iff.1 hbq
  | some bk =>
      have hbk : bk.quads = (ds.filter fun d => d.key = k).map (DrawCmd.inst cosd sind) := by
        have hq : Renderer2D.batchQuads (applyDraws cosd sind ds r) k = bk.quads := by
          unfold Renderer2D.batchQuads
          rw [halo]
        rw [← hq, hbatch]
      unfold Renderer2D.submitDraws
      rw [filter_key_filterMap k]
      have hperm := List.Perm.filter (fun kb => decide (kb.1 = k))
        (perm_sortByZ (applyDraws cosd sind ds r).quads_instances)
      have hsingle : ((applyDraws cosd sind ds r).quads_instances.filter
          fun kb => kb.1 = k) = [(k, bk)] :=
        filter_key_singleton k bk _ hnd' halo
      rw [hsingle] at hperm
      rw [List.perm_singleton.1 hperm]
      have hlen : ¬ (bk.quads.length = 0) := by
        intro h
        apply hne
        have hq0 : bk.quads = [] := List.length_eq_zero.1 h
        rw [hbk] at hq0
        exact List.map_eq_nil_iff.1 hq0
      have hflen : ¬ ((ds.filter fun d => d.key = k).length = 0) :=
        fun h => hne (List.length_eq_zero.1 h)
      simp [List.filterMap_cons, hlen, hbk, hflen, -List.length_eq_zero]

/-- C7: a batch's GPU buffer capacity never decreases (`clear` and `push`
leave it untouched and a submission only grows it); submitting N instances
with current capacity C < N (including the not-yet-allocated state, where
C = 0) performs exactly one reallocation, sized to exactly N; submitting
N ≤ C instances performs no reallocation and keeps the capacity, and when
additionally N ≥ 1 the existing buffer is overwritten in place. -/
theorem instance_buffer_capacity (b : QuadsInstanceDataBuffer)
    (hinv : b.instance_buffer = false → b.buffer_len = 0) :
    b.buffer_len ≤ b.submit_to_render_pass.1.buffer_len
    ∧ b.clear.buffer_len = b.buffer_len
    ∧ (∀ q, (b.push q).buffer_len = b.buffer_len)
    ∧ (b.buffer_len < b.quads.length →
        reallocEvents b.submit_to_render_pass.2 = [b.quads.length]
        ∧ b.submit_to_render_pass.1.buffer_len = b.quads.length)
    ∧ (b.quads.length ≤ b.buffer_len →
        reallocEvents b.submit_to_render_pass.2 = []
        ∧ b.submit_to_render_pass.1.buffer_len = b.buffer_len)
    ∧ (1 ≤ b.quads.length → b.quads.length ≤ b.buffer_len →
        GpuEvent.writeBuffer b.quads ∈ b.submit_to_render_pass.2) := by
  by_cases h0 : b.quads.length = 0
  · have hs : b.submit_to_render_pass = (b, []) := by
      unfold QuadsInstanceDataBuffer.submit_to_render_pass
      rw [if_pos h0]
    refine ⟨by rw [hs], rfl, fun q => rfl, ?_, ?_, ?_⟩
    · intro hlt
      exfalso
      omega
    · intro _
      exact ⟨by rw [hs]; rfl, by rw [hs]⟩
    · intro hone _
      exfalso
      omega
  · by_cases h1 : b.instance_buffer = false
    · have hbl : b.buffer_len = 0 := hinv h1
      have hs : b.submit_to_render_pass
          = ({ b with instance_buffer := true, buffer_len := b.quads.length },
             [GpuEvent.reallocBuffer b.quads.length,
              GpuEvent.drawIndexed 6 b.quads.length]) := by
        simp [QuadsInstanceDataBuffer.submit_to_render_pass,
          QuadsInstanceDataBuffer.reallocate_instance_buffer, h0, h1]
      refine ⟨by rw [hs, hbl]; exact Nat.zero_le _, rfl, fun q => rfl, ?_, ?_, ?_⟩
      · intro hlt
        exact ⟨by rw [hs]; rfl, by rw [hs]⟩
      · intro hle
        exfalso
        omega
      · intro hone hle
        exfalso
        omega
    · by_cases h2 : b.buffer_len < b.quads.length
      · have hs : b.submit_to_render_pass
            = ({ b with instance_buffer := true, buffer_len := b.quads.length },
               [GpuEvent.destroyBuffer, GpuEvent.reallocBuffer b.quads.length,
                GpuEvent.drawIndexed 6 b.quads.length]) := by
          simp [QuadsInstanceDataBuffer.submit_to_render_pass,
            QuadsInstanceDataBuffer.reallocate_instance_buffer, h0, h1, h2]
        refine ⟨by rw [hs]; exact le_of_lt h2, rfl, fun q => rfl, ?_, ?_, ?_⟩
        · intro hlt
          exact ⟨by rw [hs]; rfl, by rw [hs]⟩
        · intro hle
          exfalso
          omega
        · intro hone hle
          exfalso
          omega
      · have hs : b.submit_to_render_pass
            = (b, [GpuEvent.writeBuffer b.quads,
                   GpuEvent.drawIndexed 6 b.quads.length]) := by
          simp [QuadsInstanceDataBuffer.submit_to_render_pass,
            QuadsInstanceDataBuffer.reallocate_instance_buffer, h0, h1, h2]
        refine ⟨by rw [hs], rfl, fun q => rfl, ?_, ?_, ?_⟩
        · intro hlt
          exfalso
          omega
        · intro hle
          exact ⟨by rw [hs]; rfl, by rw [hs]⟩
        · intro hone hle
          rw [hs]
          simp

/-- C8: `begin` empties every existing batch's instance list while keeping
the batch entries (same keys, same GPU buffer state); after
begin, draws, begin again, all instance lists are empty again, and the
batches after a further draw sequence contain exactly the instances of that
second sequence. -/
theorem begin_clears_instances (cosd sind : ℚ → ℚ) (r : Renderer2D)
    (cc1 cc2 : ℚ × ℚ × ℚ × ℚ) (cam1 cam2 : M4) (ds1 ds2 : List DrawCmd) :
    (∀ kb ∈ (Renderer2D.begin r cc1 cam1).quads_instances, kb.2.quads = [])
    ∧ ((Renderer2D.begin r cc1 cam1).quads_instances.map fun kb =>
          (kb.1, kb.2.instance_buffer, kb.2.buffer_len))
        = (r.quads_instances.map fun kb => (kb.1, kb.2.instance_buffer, kb.2.buffer_len))
    ∧ (∀ kb ∈ (Renderer2D.begin
          (applyDraws cosd sind ds1 (Renderer2D.begin r cc1 cam1))
          cc2 cam2).quads_instances,
        kb.2.quads = [])
    ∧ ∀ k, Renderer2D.batchQuads
          (applyDraws cosd sind ds2
            (Renderer2D.begin
              (applyDraws cosd sind ds1 (Renderer2D.begin r cc1 cam1)) cc2 cam2)) k
        = (ds2.filter fun d => d.key = k).map (DrawCmd.inst cosd sind) := by
  refine ⟨begin_quads_empty r cc1 cam1, ?_, begin_quads_empty _ cc2 cam2, ?_⟩
  · unfold Renderer2D.begin
    rw [List.map_map]
    rfl
  · intro k
    rw [batchQuads_applyDraws, batchQuads_begin, List.nil_append]

/-! ### Concrete renderer states for the witnesses -/

/-- A concrete instance record. -/
def winst : QuadInstanceData := ⟨M4.id4, (1, 0, 0, 1), (1, 1), (0, 0)⟩

/-- A red-ish quad at depth index -100. -/
def wquadA : Quad :=
  (Quad.with_position_and_size wcos wsin (10, 10) (20, 20)).set_z_index (-100)

/-- A quad at the default depth index 0. -/
def wquadB : Quad := Quad.with_position_and_size wcos wsin (0, 0) (1, 1)

/-- Draw command: `wquadA` with texture handle 5. -/
def wdrawA : DrawCmd := ⟨wquadA, 5, Texture2DCoordinates.default⟩

/-- Draw command: `wquadB` with texture handle 5. -/
def wdrawB : DrawCmd := ⟨wquadB, 5, Texture2DCoordinates.default⟩

/-- Renderer after drawing `wquadA` (depth -100) and `wquadB` (depth 0) on
the same texture. -/
def wrend : Renderer2D := applyDraws wcos wsin [wdrawA, wdrawB] (Renderer2D.init 0)

/-- The batch accumulated for (5, -100) in `wrend`. -/
def wbufA : QuadsInstanceDataBuffer :=
  QuadsInstanceDataBuffer.new.push (DrawCmd.inst wcos wsin wdrawA)

/-- The batch accumulated for (5, 0) in `wrend`. -/
def wbufB : QuadsInstanceDataBuffer :=
  QuadsInstanceDataBuffer.new.push (DrawCmd.inst wcos wsin wdrawB)

/-- Witness for C2: in `wrend` the depth -100 batch's draw call (one
instance) comes strictly before the depth 0 batch's draw call. -/
theorem submit_draws_depth_ordered_witness :
    List.Sublist [(((5 : ℕ), (-100 : ℤ)), 1), (((5 : ℕ), (0 : ℤ)), 1)]
      (Renderer2D.submitDraws wrend) :=
  (submit_draws_depth_ordered wrend (5, -100) (5, 0) wbufA wbufB
      (by rw [show wrend.quads_instances
                = [(((5 : ℕ), (-100 : ℤ)), wbufA), (((5 : ℕ), (0 : ℤ)), wbufB)] from rfl]
          exact List.mem_cons_self _ _)
      (by rw [show wrend.quads_instances
                = [(((5 : ℕ), (-100 : ℤ)), wbufA), (((5 : ℕ), (0 : ℤ)), wbufB)] from rfl]
          exact List.mem_cons_of_mem _ (List.mem_cons_self _ _))
      (by decide) (by decide) (by decide)).1

/-- Witness for C3: drawing `wquadB` twice on texture 5 yields exactly one
draw call for key (5, 0), with instance count 2. -/
theorem draw_batching_single_draw_call_witness :
    ((Renderer2D.submitDraws (applyDraws wcos wsin [wdrawB, wdrawB] (Renderer2D.init 0))).filter
        fun e => e.1 = (((5 : ℕ), (0 : ℤ)))) = [(((5 : ℕ), (0 : ℤ)), 2)] :=
  (draw_batching_single_draw_call wcos wsin (Renderer2D.init 0) [wdrawB, wdrawB]
      (5, 0) (by decide) (by decide)).2 (by decide)

/-- Witness for C7: submitting one instance into a batch with no GPU buffer
yet reallocates exactly once, sized to 1, and the capacity becomes 1. -/
theorem instance_buffer_capacity_witness :
    reallocEvents (QuadsInstanceDataBuffer.new.push winst).submit_to_render_pass.2 = [1]
    ∧ (QuadsInstanceDataBuffer.new.push winst).submit_to_render_pass.1.buffer_len = 1 :=
  (instance_buffer_capacity (QuadsInstanceDataBuffer.new.push winst)
      (by decide)).2.2.2.1 (by decide)

/-- Witness for C8: after begin, a draw of `wquadA`, begin again and a draw
of `wquadB`, the (5, 0) batch holds exactly `wquadB`'s single instance. -/
theorem begin_clears_instances_witness :
    Renderer2D.batchQuads
        (applyDraws wcos wsin [wdrawB]
          (Renderer2D.begin
            (applyDraws wcos wsin [wdrawA]
              (Renderer2D.begin (Renderer2D.init 0) (0, 0, 0, 1) M4.id4))
            (0, 0, 0, 1) M4.id4))
        ((5 : ℕ), (0 : ℤ))
      = [DrawCmd.inst wcos wsin wdrawB] :=
  (begin_clears_instances wcos wsin (Renderer2D.init 0) (0, 0, 0, 1) (0, 0, 0, 1)
      M4.id4 M4.id4 [wdrawA] [wdrawB]).2.2.2 (5, 0)

end Navagfx
